import Mathlib

/-
Verification of the pomodoro-calendar core against its specification.

The development shallowly embeds the client-side timer engine
(usePomodoroTimer in the repository), the duration allocator
(calculateDefaultPomodoroSettings) and the active-session selector
(findActivePomodoro / checkActivePomodoro) as pure Lean functions.
Wall-clock timestamps are modelled as Int milliseconds (JavaScript
Date.now values); Math.floor((a - b) / 1000) is Int.fdiv (a - b) 1000.
JavaScript truthiness on numbers (0 is falsy) is modelled explicitly
where the source relies on it.
-/

namespace Pomodoro

/-- Phases of the timer: idle, input (focus), output (recall/blurting),
break, completed.  The source uses string literals. -/
inductive PomodoroPhase where
  | idle
  | input
  | output
  | break_
  | completed
deriving Repr, DecidableEq

/-- JavaScript numeric default via the or-operator: x or d, where 0 is
falsy.  Models expressions such as storedState.breakDuration || 5. -/
def jsOrInt (x d : Int) : Int := if x = 0 then d else x

/-- JavaScript or-default on a nullable number: models
startTimeRef.current || fallback, where both null and 0 are falsy. -/
def jsOrNum (x : Option Int) (d : Int) : Int :=
  match x with
  | some v => if v = 0 then d else v
  | none => d

/-- The record persisted per event id (StoredTimerState in the source).
Durations are minutes; startTime is an absolute millisecond timestamp;
totalSeconds is the current phase budget in seconds. -/
structure StoredTimerState where
  phase : PomodoroPhase
  startTime : Int
  totalSeconds : Int
  inputDuration : Int
  outputDuration : Int
  breakDuration : Int
  eventId : Option String
deriving Repr, DecidableEq

/-- The in-memory display state (PomodoroState in the source). -/
structure PomodoroState where
  phase : PomodoroPhase
  remainingSeconds : Int
  totalSeconds : Int
  isRunning : Bool
  inputDuration : Int
  outputDuration : Int
  breakDuration : Int
deriving Repr, DecidableEq

/-- Combined state of one mounted usePomodoroTimer hook instance:
the resolved event id, the localStorage record for that event
(persisted), the React mirror of it (storedState), the two timestamp
refs, and the display state. -/
structure HookState where
  targetEventId : Option String
  persisted : Option StoredTimerState
  storedState : Option StoredTimerState
  startTimeRef : Option Int
  phaseStartTimeRef : Option Int
  state : PomodoroState
deriving Repr, DecidableEq

/-- Embeds saveState: builds the record (break duration hard-coded to 5,
custom durations falling back to the hook props inD and outD) and, when
an event id is resolved, writes it to storage and mirrors it into
storedState; without an event id nothing happens. -/
def saveState (inD outD : Int) (phase : PomodoroPhase)
    (totalSeconds startTime : Int)
    (customInputDuration customOutputDuration : Option Int)
    (s : HookState) : HookState :=
  let actualInputDuration := customInputDuration.getD inD
  let actualOutputDuration := customOutputDuration.getD outD
  let actualBreakDuration : Int := 5
  match s.targetEventId with
  | some eid =>
      let stateToSave : StoredTimerState :=
        { phase := phase
          startTime := startTime
          totalSeconds := totalSeconds
          inputDuration := actualInputDuration
          outputDuration := actualOutputDuration
          breakDuration := actualBreakDuration
          eventId := some eid }
      { s with persisted := some stateToSave, storedState := some stateToSave }
  | none => s

/-- Embeds clearSavedState: removes the storage record and resets the
mirror and both refs, provided an event id is resolved. -/
def clearSavedState (s : HookState) : HookState :=
  match s.targetEventId with
  | some _ =>
      { s with persisted := none, storedState := none,
               startTimeRef := none, phaseStartTimeRef := none }
  | none => s

/-- Embeds updateTimer: recomputes elapsed time from the phase start
ref; below the budget it only refreshes remainingSeconds, at or past
the budget it fires the single appropriate phase transition
(input to output, input to break when the output duration is not
positive, output to break, break to completed) resetting the phase
start ref to now, persisting, and emitting one notification.  The
early return when the phase start ref is null or 0 mirrors the
JavaScript truthiness test in the source. -/
def updateTimer (inD outD : Int) (now : Int) (s : HookState) :
    HookState × List PomodoroPhase :=
  match s.storedState, s.phaseStartTimeRef with
  | some stored, some phaseStart =>
    if phaseStart = 0 then (s, [])
    else
      let elapsed := Int.fdiv (now - phaseStart) 1000
      let remaining := stored.totalSeconds - elapsed
      if remaining ≤ 0 then
        match stored.phase with
        | PomodoroPhase.input =>
          if 0 < stored.outputDuration then
            let outputSeconds := stored.outputDuration * 60
            let s1 : HookState := { s with phaseStartTimeRef := some now }
            let s2 := saveState inD outD PomodoroPhase.output outputSeconds
              (jsOrNum s1.startTimeRef now)
              (some stored.inputDuration) (some stored.outputDuration) s1
            ({ s2 with state := { s2.state with
                phase := PomodoroPhase.output
                remainingSeconds := outputSeconds
                totalSeconds := outputSeconds
                isRunning := true } }, [PomodoroPhase.output])
          else
            let breakSeconds := (jsOrInt stored.breakDuration 5) * 60
            let s1 : HookState := { s with phaseStartTimeRef := some now }
            let s2 := saveState inD outD PomodoroPhase.break_ breakSeconds
              (jsOrNum s1.startTimeRef now)
              (some stored.inputDuration) (some stored.outputDuration) s1
            ({ s2 with state := { s2.state with
                phase := PomodoroPhase.break_
                remainingSeconds := breakSeconds
                totalSeconds := breakSeconds
                isRunning := true } }, [PomodoroPhase.break_])
        | PomodoroPhase.output =>
            let breakSeconds := (jsOrInt stored.breakDuration 5) * 60
            let s1 : HookState := { s with phaseStartTimeRef := some now }
            let s2 := saveState inD outD PomodoroPhase.break_ breakSeconds
              (jsOrNum s1.startTimeRef now)
              (some stored.inputDuration) (some stored.outputDuration) s1
            ({ s2 with state := { s2.state with
                phase := PomodoroPhase.break_
                remainingSeconds := breakSeconds
                totalSeconds := breakSeconds
                isRunning := true } }, [PomodoroPhase.break_])
        | PomodoroPhase.break_ =>
            let s1 := clearSavedState s
            ({ s1 with state := { s1.state with
                phase := PomodoroPhase.completed
                remainingSeconds := 0
                isRunning := false } }, [PomodoroPhase.completed])
        | _ => (s, [])
      else
        ({ s with state := { s.state with
            remainingSeconds := remaining
            isRunning := true } }, [])
  | _, _ => (s, [])

/-- Embeds start: unconditionally begins a fresh input phase at now,
resets both refs, persists and notifies.  The source has no guard
against being called while a session is already running. -/
def start (inD outD : Int) (customInputDuration customOutputDuration : Option Int)
    (now : Int) (s : HookState) : HookState × List PomodoroPhase :=
  let actualInputDuration := customInputDuration.getD inD
  let actualOutputDuration := customOutputDuration.getD outD
  let inputSeconds := actualInputDuration * 60
  let s1 : HookState := { s with startTimeRef := some now, phaseStartTimeRef := some now }
  let s2 := saveState inD outD PomodoroPhase.input inputSeconds now
    (some actualInputDuration) (some actualOutputDuration) s1
  ({ s2 with state :=
      { phase := PomodoroPhase.input
        remainingSeconds := inputSeconds
        totalSeconds := inputSeconds
        isRunning := true
        inputDuration := actualInputDuration
        outputDuration := actualOutputDuration
        breakDuration := 5 } }, [PomodoroPhase.input])

/-- Embeds pause: only flips the in-memory isRunning flag; the interval
teardown is handled elsewhere and nothing is persisted. -/
def pause (s : HookState) : HookState :=
  { s with state := { s.state with isRunning := false } }

/-- Embeds resume: rejected without a stored record or from idle or
completed; otherwise shifts the absolute start so that
now minus start equals the already elapsed portion, persists the
shifted record, and marks the timer running. -/
def resume (inD outD : Int) (now : Int) (s : HookState) : HookState :=
  match s.storedState with
  | none => s
  | some stored =>
    if stored.phase = PomodoroPhase.idle ∨ stored.phase = PomodoroPhase.completed then s
    else
      let elapsedReal := s.state.totalSeconds - s.state.remainingSeconds
      let newStartTime := now - elapsedReal * 1000
      let s1 : HookState := { s with phaseStartTimeRef := some newStartTime,
                                     startTimeRef := some newStartTime }
      let s2 := saveState inD outD stored.phase stored.totalSeconds newStartTime
        (some stored.inputDuration) (some stored.outputDuration) s1
      { s2 with state := { s2.state with isRunning := true } }

/-- Embeds skipToBreak: no phase guard in the source; always moves to a
fresh 300 second break, persists (without custom durations, so the hook
props are recorded) and notifies. -/
def skipToBreak (inD outD : Int) (now : Int) (s : HookState) :
    HookState × List PomodoroPhase :=
  let breakSeconds : Int := 5 * 60
  let s1 : HookState := { s with phaseStartTimeRef := some now }
  let s2 := saveState inD outD PomodoroPhase.break_ breakSeconds
    (jsOrNum s1.startTimeRef now) none none s1
  ({ s2 with state := { s2.state with
      phase := PomodoroPhase.break_
      remainingSeconds := breakSeconds
      totalSeconds := breakSeconds
      isRunning := true } }, [PomodoroPhase.break_])

/-- Embeds skipToOutput: only acts when a stored record exists and its
phase is input; with a positive configured output duration it moves to
the output phase, otherwise it falls through to skipToBreak. -/
def skipToOutput (inD outD : Int) (now : Int) (s : HookState) :
    HookState × List PomodoroPhase :=
  match s.storedState with
  | none => (s, [])
  | some stored =>
    if stored.phase ≠ PomodoroPhase.input then (s, [])
    else if 0 < outD then
      let outputSeconds := outD * 60
      let s1 : HookState := { s with phaseStartTimeRef := some now }
      let s2 := saveState inD outD PomodoroPhase.output outputSeconds
        (jsOrNum s1.startTimeRef now) none none s1
      ({ s2 with state := { s2.state with
          phase := PomodoroPhase.output
          remainingSeconds := outputSeconds
          totalSeconds := outputSeconds
          isRunning := true } }, [PomodoroPhase.output])
    else skipToBreak inD outD now s

/-- Embeds calculateRemaining: clamped reconstruction of remaining
seconds from the phase start ref; falls back to the full input budget
when the stored record or the ref is missing (or the ref is 0, which is
falsy in the source). -/
def calculateRemaining (inD : Int) (phaseStart : Option Int)
    (stored : Option StoredTimerState) (now : Int) : Int :=
  match stored, phaseStart with
  | some sst, some ps =>
    if ps = 0 then inD * 60
    else max 0 (sst.totalSeconds - Int.fdiv (now - ps) 1000)
  | _, _ => inD * 60

/-- Embeds getInitialState: reconstructs the display state from a
stored record, or yields the idle defaults. -/
def getInitialState (inD outD : Int) (phaseStart : Option Int)
    (storedState : Option StoredTimerState) (now : Int) : PomodoroState :=
  match storedState with
  | some ss =>
    let remaining := calculateRemaining inD phaseStart (some ss) now
    { phase := ss.phase
      remainingSeconds := remaining
      totalSeconds := ss.totalSeconds
      isRunning := 0 < remaining
      inputDuration := ss.inputDuration
      outputDuration := ss.outputDuration
      breakDuration := jsOrInt ss.breakDuration 5 }
  | none =>
    { phase := PomodoroPhase.idle
      remainingSeconds := inD * 60
      totalSeconds := inD * 60
      isRunning := false
      inputDuration := inD
      outputDuration := outD
      breakDuration := 5 }

/-- Embeds the stored-state loader (the useState initializer): keeps a
record whose phase has not fully elapsed, removes an expired one.  The
boolean reports whether storage was cleared. -/
def loadStoredState (raw : Option StoredTimerState) (now : Int) :
    Option StoredTimerState × Bool :=
  match raw with
  | some parsed =>
    let elapsed := Int.fdiv (now - parsed.startTime) 1000
    if elapsed < parsed.totalSeconds then (some parsed, false)
    else (none, true)
  | none => (none, false)

/-- Mount-time composition: run the loader against the raw storage
contents (only when an event id resolves), seed both refs from the
loaded record and build the initial display state. -/
def initHookState (inD outD : Int) (resolvedEventId : Option String)
    (raw : Option StoredTimerState) (now : Int) : HookState :=
  let loadResult :=
    match resolvedEventId with
    | some _ => loadStoredState raw now
    | none => (none, false)
  let loaded := loadResult.1
  let persisted0 := if loadResult.2 then none else raw
  { targetEventId := resolvedEventId
    persisted := persisted0
    storedState := loaded
    startTimeRef := Option.map StoredTimerState.startTime loaded
    phaseStartTimeRef := Option.map StoredTimerState.startTime loaded
    state := getInitialState inD outD (Option.map StoredTimerState.startTime loaded) loaded now }

/-- Embeds the auto-resume effect: for a live stored record it either
restores the phase start ref and display state when time remains, or
delegates to updateTimer when the phase has expired. -/
def autoResumeEffect (inD outD : Int) (now : Int) (s : HookState) :
    HookState × List PomodoroPhase :=
  match s.storedState with
  | none => (s, [])
  | some stored =>
    if stored.phase = PomodoroPhase.idle ∨ stored.phase = PomodoroPhase.completed then (s, [])
    else
      let remaining := calculateRemaining inD s.phaseStartTimeRef (some stored) now
      if 0 < remaining then
        let s1 : HookState :=
          { s with phaseStartTimeRef := some (now - (stored.totalSeconds - remaining) * 1000) }
        ({ s1 with state := { s1.state with
            phase := stored.phase
            remainingSeconds := remaining
            totalSeconds := stored.totalSeconds
            isRunning := true
            inputDuration := stored.inputDuration
            outputDuration := stored.outputDuration
            breakDuration := jsOrInt stored.breakDuration 5 } }, [])
      else updateTimer inD outD now s

/-- The duration plan returned by the allocator (the object literal in
the source, minutes throughout). -/
structure PomodoroSettings where
  inputDuration : Int
  outputDuration : Int
  longBreakDuration : Int
  sets : Int
  isStandardCycle : Bool
deriving Repr, DecidableEq

def WITH_BLURTING_FOCUS : Int := 20

def WITH_BLURTING_OUTPUT : Int := 5

def STANDARD_CYCLE_DURATION : Int := 30

def MIN_POMODORO_DURATION : Int := 25

def MIN_POMODORO_WITH_BREAK_DURATION : Int := 30

/-- Embeds calculateDefaultPomodoroSettings: none below 25 minutes,
a focus-only plan for 25 to 29 minutes, standard cycles for totals
divisible by 30, and a single fallback cycle otherwise.  The long
break field is 15 in both of the last two branches. -/
def calculateDefaultPomodoroSettings (eventDurationMinutes : Int) :
    Option PomodoroSettings :=
  if eventDurationMinutes < MIN_POMODORO_DURATION then none
  else if MIN_POMODORO_DURATION ≤ eventDurationMinutes ∧
        eventDurationMinutes < MIN_POMODORO_WITH_BREAK_DURATION then
    some { inputDuration := 25, outputDuration := 0, longBreakDuration := 0,
           sets := 1, isStandardCycle := false }
  else if eventDurationMinutes % STANDARD_CYCLE_DURATION = 0 then
    some { inputDuration := WITH_BLURTING_FOCUS
           outputDuration := WITH_BLURTING_OUTPUT
           longBreakDuration := 15
           sets := eventDurationMinutes / STANDARD_CYCLE_DURATION
           isStandardCycle := true }
  else
    some { inputDuration := WITH_BLURTING_FOCUS
           outputDuration := WITH_BLURTING_OUTPUT
           longBreakDuration := 15
           sets := 1
           isStandardCycle := false }

/-- Calendar event as read by the selector; startAt and endAt are the
millisecond timestamps produced by Date.getTime in the source. -/
structure EventRecord where
  id : String
  startAt : Int
  endAt : Int
  isPomodoro : Bool
deriving Repr, DecidableEq

/-- Embeds findActivePomodoro: first event that is a pomodoro and whose
window contains now, with the comparison closed at both ends
(now greater or equal to start and less or equal to end). -/
def findActivePomodoro (now : Int) (events : List EventRecord) :
    Option EventRecord :=
  events.find? fun event =>
    event.isPomodoro && decide (event.startAt ≤ now) && decide (now ≤ event.endAt)

/-- Embeds one run of checkActivePomodoro: binds the selector result
when nothing is bound; when something is bound and no event qualifies,
unbinds only if the timer phase is completed or idle; otherwise leaves
the binding unchanged. -/
def checkActivePomodoro (now : Int) (events : List EventRecord)
    (activePomodoro : Option EventRecord) (timerPhase : PomodoroPhase) :
    Option EventRecord :=
  match findActivePomodoro now events, activePomodoro with
  | some active, none => some active
  | none, some bound =>
      if timerPhase = PomodoroPhase.completed ∨ timerPhase = PomodoroPhase.idle then none
      else some bound
  | some _, some bound => some bound
  | none, none => none

/-- Concrete stored record used to exercise the tick theorem: an input
phase of 1500 seconds begun at millisecond 1000000. -/
def c1Rec : StoredTimerState :=
  { phase := PomodoroPhase.input, startTime := 1000000, totalSeconds := 1500,
    inputDuration := 25, outputDuration := 5, breakDuration := 5,
    eventId := some "e" }

/-- Concrete hook state holding c1Rec, mid input phase. -/
def c1State : HookState :=
  { targetEventId := some "e", persisted := some c1Rec, storedState := some c1Rec,
    startTimeRef := some 1000000, phaseStartTimeRef := some 1000000,
    state := { phase := PomodoroPhase.input, remainingSeconds := 1500,
               totalSeconds := 1500, isRunning := true, inputDuration := 25,
               outputDuration := 5, breakDuration := 5 } }

/-- Concrete freshly mounted hook state with no stored record. -/
def c2Mount : HookState := initHookState 25 5 (some "ev") none 0

/-- Concrete pause scenario state: started at 1000000, ticked at
1010000 (10 seconds in), then paused. -/
def c2State : HookState :=
  pause (updateTimer 25 5 1010000 (start 25 5 none none 1000000 c2Mount).1).1

/-- The record persisted by the start call in the pause scenario. -/
def c2Rec : StoredTimerState :=
  { phase := PomodoroPhase.input, startTime := 1000000, totalSeconds := 1500,
    inputDuration := 25, outputDuration := 5, breakDuration := 5,
    eventId := some "ev" }

/-- Concrete stored record, long expired: a 60 second input phase begun
at millisecond 1000000, observed at 10000000 (9000 seconds later, past
every phase of the whole session). -/
def c3Rec : StoredTimerState :=
  { phase := PomodoroPhase.input, startTime := 1000000, totalSeconds := 60,
    inputDuration := 1, outputDuration := 1, breakDuration := 5,
    eventId := some "e" }

/-- Concrete started session (1 minute input, 1 minute output) for the
single-phase-advance observation. -/
def c3Started : HookState :=
  (start 1 1 none none 1000000 (initHookState 1 1 (some "e") none 0)).1

/-- Concrete running session used against the start-is-a-no-op claim. -/
def c5Running : HookState :=
  (start 25 5 none none 1000000 (initHookState 25 5 (some "e") none 0)).1

/-- Concrete completed-phase hook state used against the skip guards
claim. -/
def c6Completed : HookState :=
  { targetEventId := some "e", persisted := none, storedState := none,
    startTimeRef := none, phaseStartTimeRef := none,
    state := { phase := PomodoroPhase.completed, remainingSeconds := 0,
               totalSeconds := 300, isRunning := false, inputDuration := 25,
               outputDuration := 5, breakDuration := 5 } }

/-- Concrete event used by the selector theorems. -/
def c7Event : EventRecord :=
  { id := "e1", startAt := 0, endAt := 100, isPomodoro := true }

/-- Concrete bound event used by the selector-step witness. -/
def c8Bound : EventRecord :=
  { id := "e2", startAt := 0, endAt := 40, isPomodoro := true }

/-- Concrete idle hook state bound to an event id, for the persistence
witnesses. -/
def c10Idle : HookState := initHookState 25 5 (some "e") none 0

/-- Floor division by 1000 agrees with Euclidean division, since the
divisor is positive; this lets omega reason about elapsed seconds. -/
theorem fdiv_thousand (a : Int) : Int.fdiv a 1000 = a / 1000 :=
  Int.fdiv_eq_ediv a (by norm_num)

/-- Helper: a tick fires no notification when the phase start ref is 0
(falsy in the source) or when the stored budget has not yet elapsed. -/
theorem updateTimer_no_fire (inD outD now2 : Int) (s2 : HookState)
    (r : StoredTimerState) (t : Int)
    (hs2 : s2.storedState = some r) (hps2 : s2.phaseStartTimeRef = some t)
    (hcase : t = 0 ∨ ¬ (r.totalSeconds - Int.fdiv (now2 - t) 1000 ≤ 0)) :
    (updateTimer inD outD now2 s2).2 = [] := by
  rcases hcase with h | h
  · subst h
    simp [updateTimer, hs2, hps2]
  · by_cases h0 : t = 0
    · subst h0
      simp [updateTimer, hs2, hps2]
    · simp [updateTimer, hs2, hps2, h0, h]

/-- C4 counterexample: the allocator maps a 30 minute event to a plan
whose break field is 15 minutes, not the 5 minutes the claim asserts
for totals divisible by 30. -/
theorem allocator_thirty_break_fifteen_cx :
  calculateDefaultPomodoroSettings 30 =
    some { inputDuration := 20, outputDuration := 5, longBreakDuration := 15,
           sets := 1, isStandardCycle := true } ∧
  calculateDefaultPomodoroSettings 30 ≠
    some { inputDuration := 20, outputDuration := 5, longBreakDuration := 5,
           sets := 1, isStandardCycle := true } ∧
  calculateDefaultPomodoroSettings 60 =
    some { inputDuration := 20, outputDuration := 5, longBreakDuration := 15,
           sets := 2, isStandardCycle := true } := by
  refine ⟨rfl, by decide, rfl⟩

/-- C4 (amended): the allocator boundary table as the code computes it.
Totals below 25 are rejected; 25 to 29 give the focus-only plan
(25, 0, 0, 1); every total at least 30 and divisible by 30 gives the
standard cycle (focus 20, recall 5, break 15, repetitions total / 30);
45 gives the single fallback cycle (20, 5, 15, 1). -/
theorem allocator_boundary_table (n : Int) (h30 : 30 ≤ n) (hdvd : n % 30 = 0) :
  calculateDefaultPomodoroSettings 24 = none ∧
  calculateDefaultPomodoroSettings 25 =
    some { inputDuration := 25, outputDuration := 0, longBreakDuration := 0,
           sets := 1, isStandardCycle := false } ∧
  calculateDefaultPomodoroSettings 29 =
    some { inputDuration := 25, outputDuration := 0, longBreakDuration := 0,
           sets := 1, isStandardCycle := false } ∧
  calculateDefaultPomodoroSettings 45 =
    some { inputDuration := 20, outputDuration := 5, longBreakDuration := 15,
           sets := 1, isStandardCycle := false } ∧
  calculateDefaultPomodoroSettings n =
    some { inputDuration := 20, outputDuration := 5, longBreakDuration := 15,
           sets := n / 30, isStandardCycle := true } := by
  refine ⟨rfl, rfl, rfl, rfl, ?_⟩
  unfold calculateDefaultPomodoroSettings MIN_POMODORO_DURATION
    MIN_POMODORO_WITH_BREAK_DURATION STANDARD_CYCLE_DURATION
    WITH_BLURTING_FOCUS WITH_BLURTING_OUTPUT
  rw [if_neg (by omega), if_neg (by omega), if_pos hdvd]

/-- C4 witness: the general divisible-by-30 clause evaluated at 90
minutes, giving three standard cycles. -/
theorem allocator_boundary_table_witness :
  (30 : Int) ≤ 90 ∧ (90 : Int) % 30 = 0 ∧
  calculateDefaultPomodoroSettings 90 =
    some { inputDuration := 20, outputDuration := 5, longBreakDuration := 15,
           sets := 90 / 30, isStandardCycle := true } :=
  ⟨by decide, by decide,
   (allocator_boundary_table 90 (by decide) (by decide)).2.2.2.2⟩

/-- C7 counterexample: an event whose end timestamp equals the current
instant still qualifies, because the source compares with
now less-or-equal end; the claim asserts the half-open interval
in which such an event no longer qualifies. -/
theorem selector_closed_end_cx :
  findActivePomodoro 100 [c7Event] = some c7Event ∧ c7Event.endAt = 100 := by
  exact ⟨rfl, rfl⟩

/-- C7 (amended): the selector treats an event as active exactly when
it is a pomodoro and now lies in the closed interval from start to end;
an event whose start equals now qualifies and one whose end equals now
also still qualifies; at most one event (the first match) is returned. -/
theorem findActivePomodoro_characterization (now : Int) (events : List EventRecord) :
  (∀ e, findActivePomodoro now events = some e →
      e ∈ events ∧ e.isPomodoro = true ∧ e.startAt ≤ now ∧ now ≤ e.endAt) ∧
  ((∃ e, e ∈ events ∧ e.isPomodoro = true ∧ e.startAt ≤ now ∧ now ≤ e.endAt) →
      (findActivePomodoro now events).isSome = true) := by
  constructor
  · intro e he
    have hmem := List.mem_of_find?_eq_some he
    have hp := List.find?_some he
    simp only [Bool.and_eq_true, decide_eq_true_eq] at hp
    exact ⟨hmem, hp.1.1, hp.1.2, hp.2⟩
  · rintro ⟨e, hmem, hpom, h1, h2⟩
    refine List.find?_isSome.mpr ⟨e, hmem, ?_⟩
    simp only [Bool.and_eq_true, decide_eq_true_eq]
    exact ⟨⟨hpom, h1⟩, h2⟩

/-- C7 witness: the characterization applied to a singleton list whose
event starts exactly at the current instant. -/
theorem findActivePomodoro_characterization_witness :
  (findActivePomodoro 0 [c7Event]).isSome = true :=
  (findActivePomodoro_characterization 0 [c7Event]).2
    ⟨c7Event, by decide, rfl, by decide, by decide⟩

/-- C8: the selector loop holds at most one bound event; while an event
is bound the step either keeps that same binding or clears it, never
replaces it by another event; the binding is kept (even after its
window closed) whenever the timer phase is neither completed nor idle;
and from the unbound state the step binds at most the single event the
selector returns. -/
theorem selector_single_binding (now : Int) (events : List EventRecord)
    (bound : EventRecord) (phase : PomodoroPhase) :
  (checkActivePomodoro now events (some bound) phase = some bound ∨
    checkActivePomodoro now events (some bound) phase = none) ∧
  (phase ≠ PomodoroPhase.completed → phase ≠ PomodoroPhase.idle →
    checkActivePomodoro now events (some bound) phase = some bound) ∧
  checkActivePomodoro now events none phase = findActivePomodoro now events := by
  unfold checkActivePomodoro
  cases h : findActivePomodoro now events with
  | none =>
    dsimp only
    refine ⟨?_, ?_, rfl⟩
    · by_cases hp : phase = PomodoroPhase.completed ∨ phase = PomodoroPhase.idle
      · right; rw [if_pos hp]
      · left; rw [if_neg hp]
    · intro h1 h2
      rw [if_neg (by tauto)]
  | some a => exact ⟨Or.inl rfl, fun _ _ => rfl, rfl⟩

/-- C8 witness: with an event bound and the timer mid-phase, the step
keeps the binding even though the event list is empty. -/
theorem selector_single_binding_witness :
  checkActivePomodoro 50 [] (some c8Bound) PomodoroPhase.input = some c8Bound :=
  (selector_single_binding 50 [] c8Bound PomodoroPhase.input).2.1
    (by decide) (by decide)

/-- C9: pause writes nothing to the persistence layer: the stored
record, its React mirror, both timestamp refs and the event binding are
untouched; only the in-memory isRunning flag changes; hence a load
performed between pause and resume reconstructs from the pre-pause
start timestamp exactly as if pause had never happened. -/
theorem pause_writes_nothing (s : HookState) :
  (pause s).persisted = s.persisted ∧
  (pause s).storedState = s.storedState ∧
  (pause s).startTimeRef = s.startTimeRef ∧
  (pause s).phaseStartTimeRef = s.phaseStartTimeRef ∧
  (pause s).targetEventId = s.targetEventId ∧
  (pause s).state = { s.state with isRunning := false } ∧
  (∀ now : Int, loadStoredState (pause s).persisted now
      = loadStoredState s.persisted now) := by
  unfold pause
  exact ⟨rfl, rfl, rfl, rfl, rfl, rfl, fun _ => rfl⟩

/-- C5 counterexample: calling start on an already running session is
not a no-op: the phase start timestamp ref moves from 1000000 to the
new now 1005000 and the phase-change callback fires again with input,
so the in-flight session is restarted rather than left unchanged. -/
theorem start_while_running_not_noop_cx :
  c5Running.state.isRunning = true ∧
  c5Running.phaseStartTimeRef = some 1000000 ∧
  (start 25 5 none none 1005000 c5Running).1.phaseStartTimeRef = some 1005000 ∧
  (start 25 5 none none 1005000 c5Running).1.state.phase = PomodoroPhase.input ∧
  (start 25 5 none none 1005000 c5Running).2 = [PomodoroPhase.input] := by
  exact ⟨rfl, rfl, rfl, rfl, rfl⟩

/-- C5 (amended): start has no already-running guard; called in any
state it unconditionally restarts the focus phase, resets both
timestamp refs to now, persists a fresh input record and notifies with
input.  The single ticking interval is maintained by the effect keyed
on isRunning, not by start itself. -/
theorem start_restarts_unconditionally
    (inD outD now : Int) (cI cO : Option Int) (s : HookState) (eid : String)
    (hev : s.targetEventId = some eid) :
  (start inD outD cI cO now s).1.state.phase = PomodoroPhase.input ∧
  (start inD outD cI cO now s).1.phaseStartTimeRef = some now ∧
  (start inD outD cI cO now s).1.startTimeRef = some now ∧
  (start inD outD cI cO now s).1.state.remainingSeconds = cI.getD inD * 60 ∧
  (start inD outD cI cO now s).1.state.isRunning = true ∧
  (start inD outD cI cO now s).2 = [PomodoroPhase.input] ∧
  Option.map StoredTimerState.phase (start inD outD cI cO now s).1.persisted
      = some PomodoroPhase.input := by
  simp [start, saveState, hev]

/-- C5 witness: the restart behaviour evaluated on the concrete running
session. -/
theorem start_restarts_unconditionally_witness :
  (start 25 5 none none 1005000 c5Running).1.state.phase = PomodoroPhase.input :=
  (start_restarts_unconditionally 25 5 1005000 none none c5Running "e" rfl).1

/-- C6 counterexample: skipToBreak invoked from the completed phase
does not leave the session unchanged: it moves the phase back to break
with a fresh 300 second budget and fires the break notification,
although the claim says it has an effect only from focus or recall. -/
theorem skip_to_break_unguarded_cx :
  c6Completed.state.phase = PomodoroPhase.completed ∧
  (skipToBreak 25 5 2000000 c6Completed).1.state.phase = PomodoroPhase.break_ ∧
  (skipToBreak 25 5 2000000 c6Completed).1.state.totalSeconds = 300 ∧
  (skipToBreak 25 5 2000000 c6Completed).2 = [PomodoroPhase.break_] := by
  exact ⟨rfl, rfl, rfl, rfl⟩

/-- C6 (amended): skipToOutput is guarded (no effect without a stored
record or when the stored phase is not input; from input with a
positive configured output duration it transitions, persists and
notifies like a timed transition), but skipToBreak is unguarded: from
every phase it moves to a fresh 300 second break, persists and
notifies. -/
theorem skip_guards (inD outD now : Int) (s : HookState) (eid : String)
    (hev : s.targetEventId = some eid) :
  (s.storedState = none → skipToOutput inD outD now s = (s, [])) ∧
  (∀ stored, s.storedState = some stored → stored.phase ≠ PomodoroPhase.input →
      skipToOutput inD outD now s = (s, [])) ∧
  (∀ stored, s.storedState = some stored → stored.phase = PomodoroPhase.input →
      0 < outD →
      (skipToOutput inD outD now s).1.state.phase = PomodoroPhase.output ∧
      (skipToOutput inD outD now s).2 = [PomodoroPhase.output] ∧
      Option.map StoredTimerState.phase (skipToOutput inD outD now s).1.persisted
        = some PomodoroPhase.output) ∧
  ((skipToBreak inD outD now s).1.state.phase = PomodoroPhase.break_ ∧
    (skipToBreak inD outD now s).1.state.totalSeconds = 300 ∧
    (skipToBreak inD outD now s).2 = [PomodoroPhase.break_] ∧
    Option.map (fun r => (r.phase, r.totalSeconds)) (skipToBreak inD outD now s).1.persisted
      = some (PomodoroPhase.break_, 300)) := by
  refine ⟨?_, ?_, ?_, ?_⟩
  · intro h
    simp [skipToOutput, h]
  · intro stored hst hph
    simp [skipToOutput, hst, hph]
  · intro stored hst hph hout
    simp [skipToOutput, hst, hph, hout, saveState, hev]
  · simp [skipToBreak, saveState, hev]

/-- C6 witness: the skipToOutput guard evaluated on the concrete
completed-phase state (no stored record, so the call is a no-op), and
the unguarded skipToBreak evaluated on the same state. -/
theorem skip_guards_witness :
  skipToOutput 25 5 2000000 c6Completed = (c6Completed, []) ∧
  (skipToBreak 25 5 2000000 c6Completed).1.state.totalSeconds = 300 :=
  ⟨(skip_guards 25 5 2000000 c6Completed "e" rfl).1 rfl,
   (skip_guards 25 5 2000000 c6Completed "e" rfl).2.2.2.2.1⟩

/-- C10: every record the persistence layer writes carries
breakDuration 5 (saveState hard-codes it); skipToBreak always installs
a 300 second break budget, in memory and in the persisted record; and
every timed transition into break (from input with no output phase, or
from output) installs a 300 second budget whenever the stored record
carries the break duration 5 that the layer always writes.  A 15 minute
break recommended by the allocator therefore never reaches a session. -/
theorem persisted_break_always_five
    (inD outD : Int) (phase : PomodoroPhase) (totalSeconds startTime : Int)
    (cI cO : Option Int) (s : HookState) (now : Int) (eid : String)
    (hev : s.targetEventId = some eid) :
  Option.map StoredTimerState.breakDuration
      (saveState inD outD phase totalSeconds startTime cI cO s).persisted = some 5 ∧
  (skipToBreak inD outD now s).1.state.totalSeconds = 300 ∧
  Option.map (fun r => (r.phase, r.totalSeconds)) (skipToBreak inD outD now s).1.persisted
      = some (PomodoroPhase.break_, 300) ∧
  (∀ stored ps, s.storedState = some stored → s.phaseStartTimeRef = some ps →
      ps ≠ 0 → stored.breakDuration = 5 →
      stored.totalSeconds ≤ Int.fdiv (now - ps) 1000 →
      ((stored.phase = PomodoroPhase.input ∧ stored.outputDuration ≤ 0) ∨
        stored.phase = PomodoroPhase.output) →
      (updateTimer inD outD now s).1.state.totalSeconds = 300 ∧
      (updateTimer inD outD now s).1.state.phase = PomodoroPhase.break_ ∧
      Option.map (fun r => (r.phase, r.totalSeconds, r.breakDuration))
          (updateTimer inD outD now s).1.persisted
        = some (PomodoroPhase.break_, 300, 5)) := by
  refine ⟨?_, ?_, ?_, ?_⟩
  · simp [saveState, hev]
  · simp [skipToBreak, saveState, hev]
  · simp [skipToBreak, saveState, hev]
  · intro stored ps hst hps hps0 hbd hexp hcase
    have hrem : stored.totalSeconds - Int.fdiv (now - ps) 1000 ≤ 0 := by omega
    rcases hcase with ⟨hph, hout⟩ | hph
    · have hout2 : ¬ (0 < stored.outputDuration) := by omega
      simp [updateTimer, hst, hps, hps0, hrem, hph, hout2, saveState, hev, jsOrInt, hbd]
    · simp [updateTimer, hst, hps, hps0, hrem, hph, saveState, hev, jsOrInt, hbd]

/-- C10 witness: the hard-coded break duration and budget evaluated on
the concrete idle state bound to an event. -/
theorem persisted_break_always_five_witness :
  Option.map StoredTimerState.breakDuration
      (saveState 25 5 PomodoroPhase.input 1500 1000000 none none c10Idle).persisted
    = some 5 ∧
  (skipToBreak 25 5 1000000 c10Idle).1.state.totalSeconds = 300 :=
  ⟨(persisted_break_always_five 25 5 PomodoroPhase.input 1500 1000000 none none
      c10Idle 1000000 "e" rfl).1,
   (persisted_break_always_five 25 5 PomodoroPhase.input 1500 1000000 none none
      c10Idle 1000000 "e" rfl).2.1⟩

/-- C1: tick correctness.  While the elapsed wall-clock time since the
phase start is strictly below the phase budget, no transition occurs,
no notification fires, and the remaining time equals the budget minus
the elapsed seconds.  Once elapsed reaches the budget, exactly one
transition fires with exactly one notification: input to output when
the stored output duration is positive, input straight to break when it
is not, output to break, and break to completed; and after the
transition a repeated tick anywhere inside the window of the new phase
fires no further notification, so the callback is invoked exactly once
per boundary. -/
theorem tick_transition_correct
    (inD outD now : Int) (s : HookState) (stored : StoredTimerState) (ps : Int)
    (eid : String)
    (hs : s.storedState = some stored)
    (hps : s.phaseStartTimeRef = some ps)
    (hps0 : ps ≠ 0)
    (hev : s.targetEventId = some eid) :
  (Int.fdiv (now - ps) 1000 < stored.totalSeconds →
      (updateTimer inD outD now s).2 = [] ∧
      (updateTimer inD outD now s).1.state.phase = s.state.phase ∧
      (updateTimer inD outD now s).1.storedState = s.storedState ∧
      (updateTimer inD outD now s).1.state.remainingSeconds
        = stored.totalSeconds - Int.fdiv (now - ps) 1000) ∧
  (stored.totalSeconds ≤ Int.fdiv (now - ps) 1000 →
    ((stored.phase = PomodoroPhase.input → 0 < stored.outputDuration →
        (updateTimer inD outD now s).2 = [PomodoroPhase.output] ∧
        (updateTimer inD outD now s).1.state.phase = PomodoroPhase.output ∧
        (∀ now2 : Int, now ≤ now2 →
          now2 < now + 1000 * (stored.outputDuration * 60) →
          (updateTimer inD outD now2 (updateTimer inD outD now s).1).2 = [])) ∧
     (stored.phase = PomodoroPhase.input → stored.outputDuration ≤ 0 →
        (updateTimer inD outD now s).2 = [PomodoroPhase.break_] ∧
        (updateTimer inD outD now s).1.state.phase = PomodoroPhase.break_ ∧
        (∀ now2 : Int, now ≤ now2 →
          now2 < now + 1000 * (jsOrInt stored.breakDuration 5 * 60) →
          (updateTimer inD outD now2 (updateTimer inD outD now s).1).2 = [])) ∧
     (stored.phase = PomodoroPhase.output →
        (updateTimer inD outD now s).2 = [PomodoroPhase.break_] ∧
        (updateTimer inD outD now s).1.state.phase = PomodoroPhase.break_ ∧
        (∀ now2 : Int, now ≤ now2 →
          now2 < now + 1000 * (jsOrInt stored.breakDuration 5 * 60) →
          (updateTimer inD outD now2 (updateTimer inD outD now s).1).2 = [])) ∧
     (stored.phase = PomodoroPhase.break_ →
        (updateTimer inD outD now s).2 = [PomodoroPhase.completed] ∧
        (updateTimer inD outD now s).1.state.phase = PomodoroPhase.completed ∧
        (∀ now2 : Int,
          (updateTimer inD outD now2 (updateTimer inD outD now s).1).2 = [])))) := by
  constructor
  · intro hlt
    have hrem : ¬ (stored.totalSeconds - Int.fdiv (now - ps) 1000 ≤ 0) := by omega
    simp [updateTimer, hs, hps, hps0, hrem]
  · intro hge
    have hrem : stored.totalSeconds - Int.fdiv (now - ps) 1000 ≤ 0 := by omega
    refine ⟨?_, ?_, ?_, ?_⟩
    · intro hph hout
      refine ⟨?_, ?_, ?_⟩
      · simp [updateTimer, hs, hps, hps0, hrem, hph, hout, saveState, hev]
      · simp [updateTimer, hs, hps, hps0, hrem, hph, hout, saveState, hev]
      · intro now2 h1 h2
        have hss : (updateTimer inD outD now s).1.storedState
            = some { phase := PomodoroPhase.output,
                     startTime := jsOrNum s.startTimeRef now,
                     totalSeconds := stored.outputDuration * 60,
                     inputDuration := stored.inputDuration,
                     outputDuration := stored.outputDuration,
                     breakDuration := 5, eventId := some eid } := by
          simp [updateTimer, hs, hps, hps0, hrem, hph, hout, saveState, hev]
        have hpr : (updateTimer inD outD now s).1.phaseStartTimeRef = some now := by
          simp [updateTimer, hs, hps, hps0, hrem, hph, hout, saveState, hev]
        refine updateTimer_no_fire inD outD now2 _ _ now hss hpr ?_
        by_cases h0 : now = 0
        · exact Or.inl h0
        · refine Or.inr ?_
          dsimp only
          rw [fdiv_thousand]
          omega
    · intro hph hout
      have hout2 : ¬ (0 < stored.outputDuration) := by omega
      refine ⟨?_, ?_, ?_⟩
      · simp [updateTimer, hs, hps, hps0, hrem, hph, hout2, saveState, hev]
      · simp [updateTimer, hs, hps, hps0, hrem, hph, hout2, saveState, hev]
      · intro now2 h1 h2
        have hss : (updateTimer inD outD now s).1.storedState
            = some { phase := PomodoroPhase.break_,
                     startTime := jsOrNum s.startTimeRef now,
                     totalSeconds := jsOrInt stored.breakDuration 5 * 60,
                     inputDuration := stored.inputDuration,
                     outputDuration := stored.outputDuration,
                     breakDuration := 5, eventId := some eid } := by
          simp [updateTimer, hs, hps, hps0, hrem, hph, hout2, saveState, hev]
        have hpr : (updateTimer inD outD now s).1.phaseStartTimeRef = some now := by
          simp [updateTimer, hs, hps, hps0, hrem, hph, hout2, saveState, hev]
        refine updateTimer_no_fire inD outD now2 _ _ now hss hpr ?_
        by_cases h0 : now = 0
        · exact Or.inl h0
        · refine Or.inr ?_
          dsimp only
          rw [fdiv_thousand]
          omega
    · intro hph
      refine ⟨?_, ?_, ?_⟩
      · simp [updateTimer, hs, hps, hps0, hrem, hph, saveState, hev]
      · simp [updateTimer, hs, hps, hps0, hrem, hph, saveState, hev]
      · intro now2 h1 h2
        have hss : (updateTimer inD outD now s).1.storedState
            = some { phase := PomodoroPhase.break_,
                     startTime := jsOrNum s.startTimeRef now,
                     totalSeconds := jsOrInt stored.breakDuration 5 * 60,
                     inputDuration := stored.inputDuration,
                     outputDuration := stored.outputDuration,
                     breakDuration := 5, eventId := some eid } := by
          simp [updateTimer, hs, hps, hps0, hrem, hph, saveState, hev]
        have hpr : (updateTimer inD outD now s).1.phaseStartTimeRef = some now := by
          simp [updateTimer, hs, hps, hps0, hrem, hph, saveState, hev]
        refine updateTimer_no_fire inD outD now2 _ _ now hss hpr ?_
        by_cases h0 : now = 0
        · exact Or.inl h0
        · refine Or.inr ?_
          dsimp only
          rw [fdiv_thousand]
          omega
    · intro hph
      refine ⟨?_, ?_, ?_⟩
      · simp [updateTimer, hs, hps, hps0, hrem, hph, clearSavedState, hev]
      · simp [updateTimer, hs, hps, hps0, hrem, hph, clearSavedState, hev]
      · intro now2
        simp [updateTimer, hs, hps, hps0, hrem, hph, clearSavedState, hev]

/-- C1 witness: the input phase of the concrete session expires at
3000000 (2000 seconds elapsed against a 1500 second budget); the tick
fires the single output notification, and an immediate repeated tick at
the same instant fires nothing. -/
theorem tick_transition_correct_witness :
  (updateTimer 25 5 3000000 c1State).2 = [PomodoroPhase.output] ∧
  (updateTimer 25 5 3000000 c1State).1.state.phase = PomodoroPhase.output ∧
  (updateTimer 25 5 3000000 (updateTimer 25 5 3000000 c1State).1).2 = [] := by
  have h := (tick_transition_correct 25 5 3000000 c1State c1Rec 1000000 "e"
    rfl rfl (by decide) rfl).2 (by decide)
  have h1 := h.1 rfl (by decide)
  exact ⟨h1.1, h1.2.1, h1.2.2 3000000 (by decide) (by decide)⟩

/-- C2: resume preserves the apparent remaining time.  For a paused
session whose stored record is live (not idle or completed) and whose
display state carries total T and remaining R, resume at any instant
sets the persisted start timestamp and the phase start ref to
now - (T - R) * 1000, and reconstructing remaining from the resumed
state at that same instant yields R again: wall-clock time spent paused
does not count against the phase.  The last conjunct is the concrete
scenario: start (25 minutes, so T = 1500), advance 10 s, pause, advance
5 s while paused, resume, advance 5 s, and the remaining time is
T - 15, not T - 20. -/
theorem resume_preserves_remaining
    (inD outD now : Int) (s : HookState) (stored : StoredTimerState) (eid : String)
    (hs : s.storedState = some stored)
    (hev : s.targetEventId = some eid)
    (hph1 : stored.phase ≠ PomodoroPhase.idle)
    (hph2 : stored.phase ≠ PomodoroPhase.completed)
    (htot : stored.totalSeconds = s.state.totalSeconds)
    (hR0 : 0 ≤ s.state.remainingSeconds)
    (hns : now - (s.state.totalSeconds - s.state.remainingSeconds) * 1000 ≠ 0) :
  Option.map StoredTimerState.startTime (resume inD outD now s).persisted
      = some (now - (s.state.totalSeconds - s.state.remainingSeconds) * 1000) ∧
  (resume inD outD now s).phaseStartTimeRef
      = some (now - (s.state.totalSeconds - s.state.remainingSeconds) * 1000) ∧
  calculateRemaining inD (resume inD outD now s).phaseStartTimeRef
      (resume inD outD now s).storedState now = s.state.remainingSeconds ∧
  (updateTimer 25 5 1020000 (resume 25 5 1015000 c2State)).1.state.remainingSeconds
      = 1500 - 15 := by
  have hcond : ¬ (stored.phase = PomodoroPhase.idle ∨
      stored.phase = PomodoroPhase.completed) := by tauto
  refine ⟨?_, ?_, ?_, by decide⟩
  · simp [resume, hs, hcond, saveState, hev]
  · simp [resume, hs, hcond, saveState, hev]
  · simp [resume, hs, hcond, saveState, hev, calculateRemaining, hns, htot]
    exact hR0

/-- C2 witness: the resume law evaluated on the concrete paused
scenario state (10 seconds elapsed when paused, resumed at 1015000). -/
theorem resume_preserves_remaining_witness :
  calculateRemaining 25 (resume 25 5 1015000 c2State).phaseStartTimeRef
      (resume 25 5 1015000 c2State).storedState 1015000
    = c2State.state.remainingSeconds :=
  (resume_preserves_remaining 25 5 1015000 c2State c2Rec "ev" rfl rfl
    (by decide) (by decide) rfl (by decide) (by decide)).2.2.1

/-- C3 counterexample: a stored input-phase record begun at 1000000
with a 60 second budget, observed at 10000000, has been expired for
far longer than the whole session (input, output and break together);
the claim says the transition logic catches up so the session reaches
the correct later phase or completed, but the loader instead deletes
the record and the session comes up idle.  Moreover a single tick on a
comparably long-expired in-memory session advances only one phase, to
output, not to completed. -/
theorem loader_discards_expired_cx :
  (initHookState 1 1 (some "e") (some c3Rec) 10000000).state.phase
      = PomodoroPhase.idle ∧
  (initHookState 1 1 (some "e") (some c3Rec) 10000000).persisted = none ∧
  (initHookState 1 1 (some "e") (some c3Rec) 10000000).storedState = none ∧
  PomodoroPhase.idle ≠ PomodoroPhase.completed ∧
  (updateTimer 1 1 10000000 c3Started).1.state.phase = PomodoroPhase.output := by
  refine ⟨rfl, rfl, rfl, by decide, rfl⟩

/-- C3 (amended): when the stored phase has fully elapsed at load time
the loader does not resurrect it, and it does not crash or loop: it
deletes the persisted record and returns nothing, so the session
initializes to idle.  Catch-up through later phases does not happen at
load; only when a record survives the load and is found expired by the
auto-resume effect does the transition logic run, and it then advances
exactly one phase (input to output here) with a fresh budget, however
much cumulative time has passed. -/
theorem loader_expiry_behaviour
    (inD outD now : Int) (eid : String) (r : StoredTimerState)
    (hexp : r.totalSeconds ≤ Int.fdiv (now - r.startTime) 1000) :
  loadStoredState (some r) now = (none, true) ∧
  (initHookState inD outD (some eid) (some r) now).state.phase
      = PomodoroPhase.idle ∧
  (initHookState inD outD (some eid) (some r) now).persisted = none ∧
  (initHookState inD outD (some eid) (some r) now).storedState = none ∧
  (∀ s stored ps, s.storedState = some stored → s.phaseStartTimeRef = some ps →
      ps ≠ 0 → s.targetEventId = some eid →
      stored.phase = PomodoroPhase.input → 0 < stored.outputDuration →
      stored.totalSeconds ≤ Int.fdiv (now - ps) 1000 →
      (autoResumeEffect inD outD now s).1.state.phase = PomodoroPhase.output ∧
      (autoResumeEffect inD outD now s).2 = [PomodoroPhase.output]) := by
  have hlt : ¬ (Int.fdiv (now - r.startTime) 1000 < r.totalSeconds) := by omega
  refine ⟨?_, ?_, ?_, ?_, ?_⟩
  · simp [loadStoredState, hlt]
  · simp [initHookState, loadStoredState, hlt, getInitialState]
  · simp [initHookState, loadStoredState, hlt]
  · simp [initHookState, loadStoredState, hlt]
  · intro s stored ps hs hps hps0 hev hph hout hexp2
    have hcond : ¬ (stored.phase = PomodoroPhase.idle ∨
        stored.phase = PomodoroPhase.completed) := by
      rw [hph]; decide
    have hcr : calculateRemaining inD (some ps) (some stored) now = 0 := by
      simp [calculateRemaining, hps0]
      omega
    have hrem : stored.totalSeconds - Int.fdiv (now - ps) 1000 ≤ 0 := by omega
    constructor
    · simp [autoResumeEffect, hs, hcond, hcr, updateTimer, hps, hps0, hrem,
        hph, hout, saveState, hev]
    · simp [autoResumeEffect, hs, hcond, hcr, updateTimer, hps, hps0, hrem,
        hph, hout, saveState, hev]

/-- C3 witness: the amended loader behaviour evaluated on the concrete
long-expired record. -/
theorem loader_expiry_behaviour_witness :
  loadStoredState (some c3Rec) 10000000 = (none, true) ∧
  (initHookState 1 1 (some "e") (some c3Rec) 10000000).state.phase
      = PomodoroPhase.idle :=
  ⟨(loader_expiry_behaviour 1 1 10000000 "e" c3Rec (by decide)).1,
   (loader_expiry_behaviour 1 1 10000000 "e" c3Rec (by decide)).2.1⟩

end Pomodoro
